import Mathlib

/-!
Shallow embedding of the Commat Commit extension (`src/extension.ts`).

The extension reads a Gemini API key from a secret store (prompting the
user when absent), runs `git diff --cached` in the first workspace folder,
sends the diff to the Gemini `generateContent` endpoint, and writes the
trimmed generated text into the source-control input box.

Host-runtime effects are made explicit:
* the network is a list of `HttpResponse` values consumed one per `fetch`;
* user interaction at a 429 rate-limit dialog is a list of
  `RateLimitInteraction` values consumed one per dialog;
* the secret store is a `SecretStore` value threaded through the run;
* `exec("git diff --cached", ...)` is an oracle `Option String` (`none`
  models a command that cannot run or exits non-zero), with Node's
  `maxBuffer` kill modelled as an explicit byte-size check.
-/

namespace Commat

instance {ε α : Type} [DecidableEq ε] [DecidableEq α] :
    DecidableEq (Except ε α) := fun x y =>
  match x, y with
  | .ok a, .ok b => decidable_of_iff (a = b) (by simp)
  | .error a, .error b => decidable_of_iff (a = b) (by simp)
  | .ok _, .error _ => .isFalse (by simp)
  | .error _, .ok _ => .isFalse (by simp)

/-- Whitespace predicate modelling JavaScript `String.prototype.trim`
(ASCII whitespace plus NBSP and the BOM; the remaining Unicode space
code points behave identically and are omitted). -/
def jsWhitespace (c : Char) : Bool :=
  c = ' ' || c = '\t' || c = '\n' || c = '\r' || c = '\x0B' || c = '\x0C' ||
    c = '\u00A0' || c = '\uFEFF'

/-- Remove leading and trailing whitespace from a character list. -/
def trimChars (l : List Char) : List Char :=
  List.rdropWhile jsWhitespace (List.dropWhile jsWhitespace l)

/-- Model of JavaScript `s.trim()`. -/
def jsTrim (s : String) : String :=
  String.mk (trimChars s.data)

/-- JavaScript truthiness of a `string | undefined` value:
`undefined` and the empty string are falsy. -/
def truthy : Option String → Bool
  | none => false
  | some s => s != ""

/-- One `parts` entry of a Gemini response candidate; `text` is `none`
when the field is absent (or the entry itself is null). -/
structure Part where
  text : Option String
deriving DecidableEq

/-- The `content` object of a candidate; `parts` is `none` when the
field is absent or not an array. -/
structure Content where
  parts : Option (List Part)
deriving DecidableEq

/-- One entry of the `candidates` array. -/
structure Candidate where
  content : Option Content
deriving DecidableEq

/-- The parsed JSON body of a Gemini response; `candidates` is `none`
when absent or not an array. -/
structure ApiData where
  candidates : Option (List Candidate)
deriving DecidableEq

/-- An HTTP response from `fetch`: a status code and a parsed body. -/
structure HttpResponse where
  status : Nat
  body : ApiData
deriving DecidableEq

/-- `data?.candidates?.[0]?.content?.parts` with the
`Array.isArray(parts)` guard: `none` models any failure of the optional
chain or a non-array `parts`. -/
def extractParts (d : ApiData) : Option (List Part) :=
  match d.candidates with
  | some (c :: _) =>
    match c.content with
    | some ct => ct.parts
    | _ => none
  | _ => none

/-- `parts.map(p => p?.text).filter(Boolean).join("")`: keep the present,
non-empty text fields and concatenate them. -/
def joinTexts (ps : List Part) : String :=
  String.join ((ps.filterMap Part.text).filter (fun t => t != ""))

/-- `response.ok` of the Fetch API: status in the range 200–299. -/
def statusOk (s : Nat) : Bool :=
  decide (200 ≤ s) && decide (s ≤ 299)

/-- The user's pick at the 429 error dialog; `dismiss` covers both the
explicit "Cancel" button and closing the dialog. -/
inductive RateLimitChoice
  | enterNewKey
  | dismiss
deriving DecidableEq

/-- One round of user interaction at a 429: the dialog choice and, when
the replacement input box is shown, its result (`none` = cancelled). -/
structure RateLimitInteraction where
  choice : RateLimitChoice
  newKey : Option String
deriving DecidableEq

/-- The secret store, holding the single `"geminiApiKey"` slot. -/
structure SecretStore where
  geminiApiKey : Option String
deriving DecidableEq

/-- The error values thrown by `generateCommitMessage`. -/
inductive GenError
  | rateLimited
  | noApiKey
  | upstream (status : Nat)
  | parseFailed
  | emptyGeneration
  | noResponse
deriving DecidableEq

/-- The `err.message` string carried by each thrown error
(`noResponse` is the artefact of an exhausted response oracle and has no
source counterpart). -/
def GenError.message : GenError → String
  | .rateLimited => "Gemini API rate limit exceeded"
  | .noApiKey => "No API key provided"
  | .upstream s => "Gemini API error: " ++ toString s
  | .parseFailed => "Failed to generate commit message"
  | .emptyGeneration => "Empty commit message from Gemini"
  | .noResponse => "no modelled response for a network call"

/-- Outcome of a `generateCommitMessage` run: the returned message or
thrown error, the secret store afterwards, the number of `fetch` calls
made, and the number of 429 rate-limit dialogs shown. -/
structure GenResult where
  result : Except GenError String
  store : SecretStore
  calls : Nat
  ratePrompts : Nat
deriving DecidableEq

/-- `generateCommitMessage(apiKey, diff)`: one `fetch` consuming the head
response; on 429 show the dialog (consuming the head interaction), and if
the user supplies a truthy replacement key, persist it
(`promptNewGeminiApiKey`) and recurse on the remaining oracle; on any
other non-2xx status throw `upstream`; on success extract, join and trim
the candidate text, throwing when absent or empty. An exhausted response
oracle yields `noResponse`; an exhausted interaction oracle at a 429
behaves as a dismissed dialog. -/
def generateCommitMessage (apiKey diff : String) :
    List HttpResponse → List RateLimitInteraction → SecretStore → GenResult
  | [], _, st => ⟨.error .noResponse, st, 0, 0⟩
  | r :: rs, is, st =>
    if r.status = 429 then
      match is with
      | [] => ⟨.error .rateLimited, st, 1, 1⟩
      | i :: is2 =>
        if i.choice = .enterNewKey then
          match i.newKey with
          | some k =>
            if k = "" then ⟨.error .noApiKey, st, 1, 1⟩
            else
              let g := generateCommitMessage k diff rs is2 ⟨some k⟩
              ⟨g.result, g.store, g.calls + 1, g.ratePrompts + 1⟩
          | none => ⟨.error .noApiKey, st, 1, 1⟩
        else ⟨.error .rateLimited, st, 1, 1⟩
    else if statusOk r.status then
      match extractParts r.body with
      | none => ⟨.error .parseFailed, st, 1, 0⟩
      | some parts =>
        let text := jsTrim (joinTexts parts)
        if text = "" then ⟨.error .emptyGeneration, st, 1, 0⟩
        else ⟨.ok text, st, 1, 0⟩
    else ⟨.error (.upstream r.status), st, 1, 0⟩

/-- Result of `getGeminiApiKey`: the value returned to the caller, the
store afterwards, and whether the first-use input box was shown. -/
structure KeyLookup where
  key : Option String
  store : SecretStore
  prompted : Bool
deriving DecidableEq

/-- `getGeminiApiKey`: return the stored key when truthy; otherwise show
the masked input box (its result is `firstUseInput`), persisting a truthy
answer before returning it. -/
def getGeminiApiKey (st : SecretStore) (firstUseInput : Option String) :
    KeyLookup :=
  if truthy st.geminiApiKey then ⟨st.geminiApiKey, st, false⟩
  else if truthy firstUseInput then ⟨firstUseInput, ⟨firstUseInput⟩, true⟩
  else ⟨firstUseInput, st, true⟩

/-- The errors raised by the pipeline outside `generateCommitMessage`. -/
inductive PipeError
  | noWorkspace
  | diffUnavailable
  | generation (e : GenError)
  | gitExtensionMissing
  | noRepository
deriving DecidableEq

/-- The `err.message` string of each pipeline error. -/
def PipeError.message : PipeError → String
  | .noWorkspace => "No workspace folder found"
  | .diffUnavailable => "Failed to get staged changes"
  | .generation e => e.message
  | .gitExtensionMissing => "Git extension not found"
  | .noRepository => "No Git repository found"

/-- The `maxBuffer` option passed to `exec` (1 MiB). -/
def execMaxBuffer : Nat := 1024 * 1024

/-- `getGitDiff` composed with `getWorkspaceRoot`: fail when there is no
workspace folder; fail when the git command errors (`gitExec = none`,
covering a missing binary, a non-repository, or a non-zero exit) or when
its output exceeds `maxBuffer` (Node kills the child and reports an
error); otherwise return the captured stdout verbatim. -/
def getGitDiff (workspaceFolders : List String) (gitExec : Option String) :
    Except PipeError String :=
  if workspaceFolders.isEmpty then .error .noWorkspace
  else
    match gitExec with
    | none => .error .diffUnavailable
    | some out =>
      if execMaxBuffer < out.utf8ByteSize then .error .diffUnavailable
      else .ok out

/-- `getGitApi` / `getActiveRepository`: require the `vscode.git`
extension and at least one repository. -/
def getActiveRepository (gitExtensionPresent : Bool)
    (repositoryCount : Nat) : Except PipeError Unit :=
  if gitExtensionPresent = false then .error .gitExtensionMissing
  else if repositoryCount = 0 then .error .noRepository
  else .ok ()

/-- The environment of one invocation of the `commatCommit.generate`
command: initial secret store, the first-use input-box answer (consulted
only if the store is empty), the workspace folders, the git oracle, the
network and interaction oracles, and the git-extension state. -/
structure PipeEnv where
  store : SecretStore
  firstUseInput : Option String
  workspaceFolders : List String
  gitExec : Option String
  responses : List HttpResponse
  interactions : List RateLimitInteraction
  gitExtensionPresent : Bool
  repositoryCount : Nat
deriving DecidableEq

/-- The user-visible outcome of one invocation. -/
inductive PipeOutcome
  | silentAbort
  | warning (msg : String)
  | errorNotification (msg : String)
  | success (message : String)
deriving DecidableEq

/-- Observable result of one invocation: the outcome, the secret store
afterwards, the number of network calls, whether the git diff command was
requested, and what (if anything) was written to the commit input box. -/
structure PipeResult where
  outcome : PipeOutcome
  store : SecretStore
  networkCalls : Nat
  diffRequested : Bool
  inputBoxWritten : Option String
deriving DecidableEq

/-- The warning text for an all-whitespace diff. -/
def noStagedWarning : String :=
  "No staged changes found. Please run git add first."

/-- Wrap an error message the way the top-level catch displays it. -/
def commatError (e : PipeError) : PipeOutcome :=
  .errorNotification ("Commat Commit Error: " ++ e.message)

/-- The `commatCommit.generate` command handler: acquire a key (silently
aborting when the result is falsy), fetch the staged diff, short-circuit
with a warning when the trimmed diff is empty, otherwise call
`generateCommitMessage` and write the message into the input box of the
first repository; any thrown error surfaces as one notification. -/
def runGenerateCommand (env : PipeEnv) : PipeResult :=
  let kl := getGeminiApiKey env.store env.firstUseInput
  if truthy kl.key then
    match getGitDiff env.workspaceFolders env.gitExec with
    | .error e => ⟨commatError e, kl.store, 0, true, none⟩
    | .ok diff =>
      if jsTrim diff = "" then
        ⟨.warning noStagedWarning, kl.store, 0, true, none⟩
      else
        let g := generateCommitMessage (kl.key.getD "") diff
          env.responses env.interactions kl.store
        match g.result with
        | .error e =>
          ⟨commatError (.generation e), g.store, g.calls, true, none⟩
        | .ok msg =>
          match getActiveRepository env.gitExtensionPresent
              env.repositoryCount with
          | .error e => ⟨commatError e, g.store, g.calls, true, none⟩
          | .ok _ => ⟨.success msg, g.store, g.calls, true, some msg⟩
  else ⟨.silentAbort, kl.store, 0, false, none⟩

/-! Trimming lemmas: `jsTrim` is idempotent, so a trimmed string has no
leading or trailing whitespace. -/

theorem dropWhile_head_false (p : Char → Bool) :
    ∀ l a t, List.dropWhile p l = a :: t → p a = false := by
  intro l
  induction l with
  | nil => intro a t h; simp [List.dropWhile] at h
  | cons b l ih =>
    intro a t h
    by_cases hb : p b = true
    · rw [List.dropWhile_cons_of_pos hb] at h
      exact ih a t h
    · rw [List.dropWhile_cons_of_neg hb] at h
      simp only [List.cons.injEq] at h
      obtain ⟨rfl, -⟩ := h
      simpa using hb

theorem dropWhile_rdropWhile_dropWhile (p : Char → Bool) (l : List Char) :
    List.dropWhile p (List.rdropWhile p (List.dropWhile p l)) =
      List.rdropWhile p (List.dropWhile p l) := by
  obtain ⟨t, ht⟩ := List.dropWhile_suffix (l := (List.dropWhile p l).reverse) p
  have hpre : List.rdropWhile p (List.dropWhile p l) ++ t.reverse =
      List.dropWhile p l := by
    simp only [List.rdropWhile]
    rw [← List.reverse_append, ht, List.reverse_reverse]
  cases h2 : List.rdropWhile p (List.dropWhile p l) with
  | nil => simp
  | cons a t2 =>
    rw [h2] at hpre
    have hcons : List.dropWhile p l = a :: (t2 ++ t.reverse) := by
      rw [← hpre]; simp
    have hne : ¬ p a = true := by
      simp [dropWhile_head_false p l a (t2 ++ t.reverse) hcons]
    simp [List.dropWhile_cons_of_neg hne]

theorem trimChars_idem (l : List Char) :
    trimChars (trimChars l) = trimChars l := by
  unfold trimChars
  rw [dropWhile_rdropWhile_dropWhile, List.rdropWhile_idempotent]

theorem jsTrim_idem (s : String) : jsTrim (jsTrim s) = jsTrim s :=
  congrArg String.mk (trimChars_idem s.data)

/-! Concrete fixtures used by witnesses and counterexamples. -/

/-- A 429 response (body irrelevant). -/
def resp429 : HttpResponse := ⟨429, ⟨none⟩⟩

/-- A 200 response whose single candidate carries one text part. -/
def respOk (t : String) : HttpResponse :=
  ⟨200, ⟨some [⟨some ⟨some [⟨some t⟩]⟩⟩]⟩⟩

/-- A 200 response whose first candidate carries two text parts. -/
def twoPartsResp : HttpResponse :=
  ⟨200, ⟨some [⟨some ⟨some [⟨some "feat: a"⟩, ⟨some " and b"⟩]⟩⟩]⟩⟩

/-- The user picks "Enter New API Key" and types `k`. -/
def enterKey (k : String) : RateLimitInteraction := ⟨.enterNewKey, some k⟩

/-- The user dismisses the 429 dialog. -/
def dismissDialog : RateLimitInteraction := ⟨.dismiss, none⟩

/-- C1: against the claim, a second 429 after a supplied replacement key
does not fail hard: the code shows the rate-limit dialog again and, when
the user supplies a further key, makes a third network call (the
recursion in the source has no retry bound, despite its "retry once"
comment). With responses 429, 429, 200 and two supplied replacement keys
the run makes 3 network calls, shows 2 rate-limit prompts, and still
succeeds. -/
theorem generate_second429_reprompts_and_makes_third_call :
    generateCommitMessage "k1" "d" [resp429, resp429, respOk "fix: x"]
        [enterKey "k2", enterKey "k3"] ⟨some "k1"⟩ =
      ⟨.ok "fix: x", ⟨some "k3"⟩, 3, 2⟩ := by decide

/-- C2 counterexample: the delivered message is not only the first text
segment of the first candidate — with segments `"feat: a"` and
`" and b"` the code delivers their concatenation, which differs from the
trimmed first segment. -/
theorem generate_joins_beyond_first_segment :
    (generateCommitMessage "k" "d" [twoPartsResp] [] ⟨some "k"⟩).result =
        .ok "feat: a and b" ∧
      ("feat: a and b" : String) ≠ jsTrim "feat: a" := by decide

/-- C2 (amended): on a successful response the delivered message is the
trimmed concatenation of all present non-empty text segments of the
first candidate, and extraction depends only on the first candidate. -/
theorem generate_success_joins_first_candidate_segments
    (key diff : String) (is : List RateLimitInteraction) (st : SecretStore)
    (r : HttpResponse) (c : Candidate) (cs : List Candidate)
    (ct : Content) (ps : List Part)
    (hok : statusOk r.status = true)
    (hcand : r.body.candidates = some (c :: cs))
    (hct : c.content = some ct) (hps : ct.parts = some ps)
    (hne : jsTrim (joinTexts ps) ≠ "") :
    (generateCommitMessage key diff [r] is st).result =
        .ok (jsTrim (joinTexts ps)) ∧
      extractParts r.body = extractParts ⟨some [c]⟩ := by
  have h429 : ¬ r.status = 429 := by
    intro h
    rw [h] at hok
    exact absurd hok (by decide)
  have hx : extractParts r.body = some ps := by
    unfold extractParts
    rw [hcand]
    simp [hct, hps]
  have hy : extractParts r.body = extractParts ⟨some [c]⟩ := by
    unfold extractParts
    rw [hcand]
  refine ⟨?_, hy⟩
  simp [generateCommitMessage, h429, hok, hx, hne]

/-- C2 witness: the amended theorem applied to the two-segment fixture. -/
theorem generate_success_joins_first_candidate_segments_witness :
    (generateCommitMessage "k" "d" [twoPartsResp] [] ⟨some "k"⟩).result =
        .ok (jsTrim (joinTexts [⟨some "feat: a"⟩, ⟨some " and b"⟩])) ∧
      extractParts twoPartsResp.body =
        extractParts
          ⟨some [⟨some ⟨some [⟨some "feat: a"⟩, ⟨some " and b"⟩]⟩⟩]⟩ :=
  generate_success_joins_first_candidate_segments "k" "d" [] ⟨some "k"⟩
    twoPartsResp ⟨some ⟨some [⟨some "feat: a"⟩, ⟨some " and b"⟩]⟩⟩ []
    ⟨some [⟨some "feat: a"⟩, ⟨some " and b"⟩]⟩
    [⟨some "feat: a"⟩, ⟨some " and b"⟩]
    (by decide) (by decide) (by decide) (by decide) (by decide)

/-- A 500 response (body irrelevant). -/
def resp500 : HttpResponse := ⟨500, ⟨none⟩⟩

/-- C3: when a key is available and the staged diff trims to empty, the
run stops with the no-staged-changes warning, makes no network call, and
writes nothing to the input box. -/
theorem pipeline_whitespace_diff_warns_without_network
    (env : PipeEnv) (diff : String)
    (hkey : truthy (getGeminiApiKey env.store env.firstUseInput).key = true)
    (hdiff : getGitDiff env.workspaceFolders env.gitExec = .ok diff)
    (hws : jsTrim diff = "") :
    runGenerateCommand env =
      ⟨.warning noStagedWarning,
        (getGeminiApiKey env.store env.firstUseInput).store, 0, true,
        none⟩ := by
  simp [runGenerateCommand, hkey, hdiff, hws]

/-- C3 witness: a whitespace-only staged diff on a concrete run. -/
theorem pipeline_whitespace_diff_warns_without_network_witness :
    runGenerateCommand ⟨⟨some "k"⟩, none, ["w"], some "   \n\t", [], [],
        true, 1⟩ =
      ⟨.warning noStagedWarning, ⟨some "k"⟩, 0, true, none⟩ :=
  pipeline_whitespace_diff_warns_without_network
    ⟨⟨some "k"⟩, none, ["w"], some "   \n\t", [], [], true, 1⟩ "   \n\t"
    (by decide) (by decide) (by decide)

/-- C4: every success-labelled return of `generateCommitMessage` equals
its own trimmed form and is non-empty; and on an ok-status response
whose extracted text is absent or trims to empty, the call throws
instead of returning. -/
theorem generate_success_trimmed_nonempty :
    (∀ key diff rs is st m,
        (generateCommitMessage key diff rs is st).result = .ok m →
        jsTrim m = m ∧ m ≠ "") ∧
    (∀ key diff r is st, statusOk r.status = true →
        (∀ ps, extractParts r.body = some ps →
          jsTrim (joinTexts ps) = "") →
        ∃ e, (generateCommitMessage key diff [r] is st).result =
          .error e) := by
  constructor
  · intro key diff rs
    induction rs generalizing key with
    | nil =>
      intro is st m h
      simp [generateCommitMessage] at h
    | cons r rs ih =>
      intro is st m h
      by_cases h429 : r.status = 429
      · cases is with
        | nil => simp [generateCommitMessage, h429] at h
        | cons i is2 =>
          by_cases hc : i.choice = RateLimitChoice.enterNewKey
          · cases hk : i.newKey with
            | none => simp [generateCommitMessage, h429, hc, hk] at h
            | some k =>
              by_cases hke : k = ""
              · simp [generateCommitMessage, h429, hc, hk, hke] at h
              · simp only [generateCommitMessage, h429, hc, hk, hke,
                  if_true, if_pos, if_neg] at h
                simp [h429, hc, hke] at h
                exact ih k is2 ⟨some k⟩ m h
          · simp [generateCommitMessage, h429, hc] at h
      · by_cases hok : statusOk r.status = true
        · cases hx : extractParts r.body with
          | none => simp [generateCommitMessage, h429, hok, hx] at h
          | some ps =>
            by_cases hne : jsTrim (joinTexts ps) = ""
            · simp [generateCommitMessage, h429, hok, hx, hne] at h
            · simp [generateCommitMessage, h429, hok, hx, hne] at h
              subst h
              exact ⟨jsTrim_idem _, hne⟩
        · simp [generateCommitMessage, h429, hok] at h
  · intro key diff r is st hok habs
    have h429 : ¬ r.status = 429 := by
      intro h
      rw [h] at hok
      exact absurd hok (by decide)
    cases hx : extractParts r.body with
    | none =>
      exact ⟨.parseFailed, by simp [generateCommitMessage, h429, hok, hx]⟩
    | some ps =>
      have hz := habs ps hx
      exact ⟨.emptyGeneration,
        by simp [generateCommitMessage, h429, hok, hx, hz]⟩

/-- C4 witness: a padded candidate text is delivered trimmed, and an
all-whitespace candidate text throws. -/
theorem generate_success_trimmed_nonempty_witness :
    (jsTrim "hi" = "hi" ∧ "hi" ≠ "") ∧
      ∃ e, (generateCommitMessage "k" "d" [respOk "  "] []
        ⟨some "k"⟩).result = .error e :=
  ⟨generate_success_trimmed_nonempty.1 "k" "d" [respOk " hi "] []
      ⟨some "k"⟩ "hi" (by decide),
    generate_success_trimmed_nonempty.2 "k" "d" (respOk "  ") []
      ⟨some "k"⟩ (by decide)
      (by
        intro ps hps
        have hq : [({ text := some "  " } : Part)] = ps := by
          simpa [respOk, extractParts] using hps
        subst hq
        decide)⟩

/-- C5: a non-2xx, non-429 status makes the run fail with the upstream
error carrying that status: one network call, an error notification,
nothing written to the input box, stored credential unchanged. -/
theorem pipeline_upstream_status_fails
    (env : PipeEnv) (diff : String) (s : Nat) (b : ApiData)
    (hkey : truthy env.store.geminiApiKey = true)
    (hdiff : getGitDiff env.workspaceFolders env.gitExec = .ok diff)
    (hws : jsTrim diff ≠ "")
    (hresp : env.responses = [⟨s, b⟩])
    (hnok : statusOk s = false) (h429 : s ≠ 429) :
    runGenerateCommand env =
      ⟨commatError (.generation (.upstream s)), env.store, 1, true,
        none⟩ := by
  simp [runGenerateCommand, getGeminiApiKey, hkey, hdiff, hws, hresp,
    generateCommitMessage, h429, hnok]

/-- C5 witness: an HTTP 500 on a concrete run. -/
theorem pipeline_upstream_status_fails_witness :
    runGenerateCommand ⟨⟨some "k"⟩, none, ["w"], some "+x", [resp500], [],
        true, 1⟩ =
      ⟨commatError (.generation (.upstream 500)), ⟨some "k"⟩, 1, true,
        none⟩ :=
  pipeline_upstream_status_fails
    ⟨⟨some "k"⟩, none, ["w"], some "+x", [resp500], [], true, 1⟩ "+x" 500
    ⟨none⟩ (by decide) (by decide) (by decide) rfl (by decide) (by decide)

/-- C6: a 429 followed by the user declining — dismissing the dialog, or
accepting it but cancelling or emptying the replacement input — always
throws the rate-limited or no-API-key error, never a message. -/
theorem generate_429_decline_fails
    (key diff : String) (r : HttpResponse) (rs : List HttpResponse)
    (i : RateLimitInteraction) (is : List RateLimitInteraction)
    (st : SecretStore)
    (h429 : r.status = 429)
    (hdecl : i.choice = RateLimitChoice.dismiss ∨
      truthy i.newKey = false) :
    (generateCommitMessage key diff (r :: rs) (i :: is) st).result =
      .error (if i.choice = RateLimitChoice.enterNewKey
        then GenError.noApiKey else GenError.rateLimited) := by
  cases hc : i.choice with
  | dismiss => simp [generateCommitMessage, h429, hc]
  | enterNewKey =>
    rcases hdecl with h | h
    · rw [hc] at h
      cases h
    · cases hk : i.newKey with
      | none => simp [generateCommitMessage, h429, hc, hk]
      | some k =>
        have hke : k = "" := by simpa [truthy, hk] using h
        simp [generateCommitMessage, h429, hc, hk, hke]

/-- C6 witness: dismissing the 429 dialog on a concrete run. -/
theorem generate_429_decline_fails_witness :
    (generateCommitMessage "k" "d" [resp429] [dismissDialog]
        ⟨some "k"⟩).result =
      .error (if dismissDialog.choice = RateLimitChoice.enterNewKey
        then GenError.noApiKey else GenError.rateLimited) :=
  generate_429_decline_fails "k" "d" resp429 [] dismissDialog []
    ⟨some "k"⟩ (by decide) (Or.inl rfl)

/-- C7: with no stored credential and a cancelled first-use prompt, the
key lookup returns absent and the run aborts silently: no notification,
no diff request, no network call, store untouched. -/
theorem pipeline_cancelled_first_prompt_silent_abort
    (env : PipeEnv)
    (hstore : truthy env.store.geminiApiKey = false)
    (hinput : env.firstUseInput = none) :
    (getGeminiApiKey env.store env.firstUseInput).key = none ∧
      runGenerateCommand env = ⟨.silentAbort, env.store, 0, false, none⟩ := by
  have hkl : getGeminiApiKey env.store env.firstUseInput =
      ⟨none, env.store, true⟩ := by
    unfold getGeminiApiKey
    rw [hinput, hstore]
    simp [truthy]
  refine ⟨by rw [hkl], ?_⟩
  simp [runGenerateCommand, hkl, truthy]

/-- C7 witness: empty store and a cancelled input box on a concrete
run. -/
theorem pipeline_cancelled_first_prompt_silent_abort_witness :
    (getGeminiApiKey ⟨none⟩ none).key = none ∧
      runGenerateCommand ⟨⟨none⟩, none, [], none, [], [], false, 0⟩ =
        ⟨.silentAbort, ⟨none⟩, 0, false, none⟩ :=
  pipeline_cancelled_first_prompt_silent_abort
    ⟨⟨none⟩, none, [], none, [], [], false, 0⟩ (by decide) rfl

/-- C8: a truthy stored credential is returned as-is, without prompting
and without modifying the store; and across a `generateCommitMessage`
run the store either stays unchanged or ends holding exactly a truthy
key the user typed at some rate-limit replacement prompt. -/
theorem credential_reused_without_prompting :
    (∀ st input, truthy st.geminiApiKey = true →
        getGeminiApiKey st input = ⟨st.geminiApiKey, st, false⟩) ∧
    (∀ key diff rs is st,
        (generateCommitMessage key diff rs is st).store = st ∨
        ∃ i ∈ is, i.choice = RateLimitChoice.enterNewKey ∧
          truthy i.newKey = true ∧
          (generateCommitMessage key diff rs is st).store.geminiApiKey =
            i.newKey) := by
  constructor
  · intro st input h
    unfold getGeminiApiKey
    rw [h]
    simp
  · intro key diff rs
    induction rs generalizing key with
    | nil =>
      intro is st
      left
      simp [generateCommitMessage]
    | cons r rs ih =>
      intro is st
      by_cases h429 : r.status = 429
      · cases is with
        | nil => left; simp [generateCommitMessage, h429]
        | cons i is2 =>
          by_cases hc : i.choice = RateLimitChoice.enterNewKey
          · cases hk : i.newKey with
            | none => left; simp [generateCommitMessage, h429, hc, hk]
            | some k =>
              by_cases hke : k = ""
              · left; simp [generateCommitMessage, h429, hc, hk, hke]
              · have hstep :
                    (generateCommitMessage key diff (r :: rs) (i :: is2)
                        st).store =
                      (generateCommitMessage k diff rs is2
                        ⟨some k⟩).store := by
                  simp [generateCommitMessage, h429, hc, hk, hke]
                rcases ih k is2 ⟨some k⟩ with hsame | ⟨j, hj, hjc, hjk, hjs⟩
                · right
                  refine ⟨i, List.mem_cons_self i is2, hc, ?_, ?_⟩
                  · simp [truthy, hk, hke]
                  · rw [hstep, hsame, hk]
                · right
                  exact ⟨j, List.mem_cons_of_mem i hj, hjc, hjk,
                    by rw [hstep]; exact hjs⟩
          · left; simp [generateCommitMessage, h429, hc]
      · by_cases hok : statusOk r.status = true
        · cases hx : extractParts r.body with
          | none => left; simp [generateCommitMessage, h429, hok, hx]
          | some ps =>
            by_cases hne : jsTrim (joinTexts ps) = ""
            · left; simp [generateCommitMessage, h429, hok, hx, hne]
            · left; simp [generateCommitMessage, h429, hok, hx, hne]
        · left; simp [generateCommitMessage, h429, hok]

/-- C8 witness: a stored key is reused untouched on a success run. -/
theorem credential_reused_without_prompting_witness :
    getGeminiApiKey ⟨some "k"⟩ (some "other") =
        ⟨some "k", ⟨some "k"⟩, false⟩ ∧
      ((generateCommitMessage "k" "d" [respOk "hi"] []
          ⟨some "k"⟩).store = ⟨some "k"⟩ ∨
        ∃ i ∈ ([] : List RateLimitInteraction),
          i.choice = RateLimitChoice.enterNewKey ∧
            truthy i.newKey = true ∧
            (generateCommitMessage "k" "d" [respOk "hi"] []
              ⟨some "k"⟩).store.geminiApiKey = i.newKey) :=
  ⟨credential_reused_without_prompting.1 ⟨some "k"⟩ (some "other")
      (by decide),
    credential_reused_without_prompting.2 "k" "d" [respOk "hi"] []
      ⟨some "k"⟩⟩

/-- C9: `getGitDiff` fails with the no-workspace error when no workspace
folder exists; with the diff-unavailable error exactly when the command
errors or its output exceeds the `maxBuffer` capture bound; and
otherwise returns the captured output verbatim — an all-whitespace
output included. -/
theorem getGitDiff_error_classification :
    (∀ g, getGitDiff [] g = .error .noWorkspace) ∧
    (∀ ws, ws ≠ [] → getGitDiff ws none = .error .diffUnavailable) ∧
    (∀ ws out, ws ≠ [] → execMaxBuffer < out.utf8ByteSize →
        getGitDiff ws (some out) = .error .diffUnavailable) ∧
    (∀ ws out, ws ≠ [] → out.utf8ByteSize ≤ execMaxBuffer →
        getGitDiff ws (some out) = .ok out) := by
  refine ⟨?_, ?_, ?_, ?_⟩
  · intro g
    simp [getGitDiff]
  · intro ws h
    cases ws with
    | nil => exact absurd rfl h
    | cons a t => simp [getGitDiff]
  · intro ws out h hlt
    cases ws with
    | nil => exact absurd rfl h
    | cons a t => simp [getGitDiff, hlt]
  · intro ws out h hle
    cases ws with
    | nil => exact absurd rfl h
    | cons a t => simp [getGitDiff, Nat.not_lt.mpr hle]

/-- C9 witness: no workspace, a failed command, and a verbatim
all-whitespace diff on concrete inputs. -/
theorem getGitDiff_error_classification_witness :
    getGitDiff [] (some "x") = .error .noWorkspace ∧
      getGitDiff ["w"] none = .error .diffUnavailable ∧
      getGitDiff ["w"] (some "   \n") = .ok "   \n" :=
  ⟨getGitDiff_error_classification.1 (some "x"),
    getGitDiff_error_classification.2.1 ["w"] (by decide),
    getGitDiff_error_classification.2.2.2 ["w"] "   \n" (by decide)
      (by decide)⟩

/-- C10: a truthy replacement key typed at the 429 prompt is persisted
before the retried network call: the retry runs from a store already
holding the new key, and when the retried call itself fails with an
upstream error the store still holds the new key. -/
theorem replacement_key_persisted_before_retry
    (key diff k : String) (r : HttpResponse)
    (i : RateLimitInteraction) (st : SecretStore)
    (h429 : r.status = 429) (hc : i.choice = RateLimitChoice.enterNewKey)
    (hk : i.newKey = some k) (hke : k ≠ "") :
    (∀ rs is,
        generateCommitMessage key diff (r :: rs) (i :: is) st =
          ⟨(generateCommitMessage k diff rs is ⟨some k⟩).result,
            (generateCommitMessage k diff rs is ⟨some k⟩).store,
            (generateCommitMessage k diff rs is ⟨some k⟩).calls + 1,
            (generateCommitMessage k diff rs is
              ⟨some k⟩).ratePrompts + 1⟩) ∧
    (∀ r2 is, statusOk r2.status = false → r2.status ≠ 429 →
        generateCommitMessage key diff [r, r2] (i :: is) st =
          ⟨.error (.upstream r2.status), ⟨some k⟩, 2, 1⟩) := by
  constructor
  · intro rs is
    simp [generateCommitMessage, h429, hc, hk, hke]
  · intro r2 is hnok h429b
    simp [generateCommitMessage, h429, hc, hk, hke, hnok, h429b]

/-- C10 witness: the new key survives a failed (HTTP 500) retry. -/
theorem replacement_key_persisted_before_retry_witness :
    generateCommitMessage "k1" "d" [resp429, resp500] [enterKey "k2"]
        ⟨some "k1"⟩ =
      ⟨.error (.upstream 500), ⟨some "k2"⟩, 2, 1⟩ :=
  (replacement_key_persisted_before_retry "k1" "d" "k2" resp429
      (enterKey "k2") ⟨some "k1"⟩ (by decide) rfl rfl (by decide)).2
    resp500 [] (by decide) (by decide)

end Commat
